import Mathlib

/-!
Shallow embedding of the per-workflow-execution transaction coordinator
(`service/history/workflowExecutionContext.go`).

Modelling conventions:
* Go machine integers (`int64`) become `Int`; byte sizes returned by the
  history appender become `Nat` at the shard interface and are widened to
  `Int` where the Go code does (`int64(size)`).
* Fallible Go functions returning `(T, error)` become
  `Except WfError T` or `Option WfError` paired with explicit post-state.
* Pointer mutation is modelled by explicit state passing: every commit flow
  returns its error value, the post-state of the context(s) it touched, and
  the ordered list of storage operations it issued.
* Go runtime panics (nil dereference, index out of range, failed interface
  conversion) are a distinguished `panic` outcome carrying the runtime
  message, since deferred error-driven cleanup does not fire on them.
* The opaque collaborators (mutable-state builder, shard, execution
  manager) are parameters: an `MState` carries the results its methods
  would produce, a `ShardEnv` maps each storage request to its outcome.
  Metrics, logging and engine notifications have no effect on the state or
  results modelled here and are elided.
-/

/-- One history event; only the fields read by this file (id, version). -/
structure HistoryEvent where
  eventId : Int
  version : Int
deriving DecidableEq, Repr

/-- A branch token (`[]byte` in Go); empty selects the legacy append. -/
abbrev BranchToken := List Nat

/-- Go `persistence.WorkflowEvents`: one event batch to persist. -/
structure WorkflowEvents where
  domainID : String
  workflowID : String
  runID : String
  branchToken : BranchToken
  events : List HistoryEvent
deriving DecidableEq, Repr

/-- Go `persistence.HistoryReplicationTask`: the replication-task kind carrying
branch information, including the new-run fields rewritten by the
continue-as-new merge. -/
structure HistoryReplicationTask where
  branchToken : BranchToken
  eventStoreVersion : Int
  newRunBranchToken : BranchToken
  newRunEventStoreVersion : Int
deriving DecidableEq, Repr

/-- A `persistence.Task` appearing in a replication-task list: either a
`*HistoryReplicationTask` or some other task kind (the unchecked interface
conversion in the merge only succeeds on the former). -/
inductive ReplicationTask where
  | history (t : HistoryReplicationTask)
  | otherTask (id : Nat)
deriving DecidableEq, Repr

/-- An opaque transfer/timer task descriptor. -/
abbrev TaskDesc := Nat

/-- The slice of `persistence.WorkflowExecutionInfo` read by this file. -/
structure ExecutionInfo where
  domainID : String
  workflowID : String
  runID : String
  nextEventID : Int
  state : Nat
  closeStatus : Nat
deriving DecidableEq, Repr

/-- Go `persistence.WorkflowCloseStatusContinuedAsNew`. -/
def workflowCloseStatusContinuedAsNew : Nat := 5

/-- Go `persistence.WorkflowStateCompleted`. -/
def workflowStateCompleted : Nat := 2

/-- Go `persistence.ExecutionStats` (history byte size). -/
structure ExecutionStats where
  historySize : Int
deriving DecidableEq, Repr

/-- Go `persistence.WorkflowMutation` restricted to the fields this file reads
or writes (the per-child-entity upsert/delete bookkeeping sets, which the
reset path fills with constants and nothing here reads, are elided). -/
structure WorkflowMutation where
  executionInfo : ExecutionInfo
  executionStats : Option ExecutionStats
  replicationState : Option Int
  transferTasks : List TaskDesc
  timerTasks : List TaskDesc
  replicationTasks : List ReplicationTask
  condition : Int
deriving DecidableEq, Repr

/-- Go `persistence.WorkflowSnapshot` restricted to the fields this file reads
or writes. -/
structure WorkflowSnapshot where
  executionInfo : ExecutionInfo
  executionStats : Option ExecutionStats
  replicationState : Option Int
  transferTasks : List TaskDesc
  timerTasks : List TaskDesc
  replicationTasks : List ReplicationTask
  childExecutionInfos : List Nat
  signalInfos : List Nat
  signalRequestedIDs : List String
deriving DecidableEq, Repr

/-- The error surface of this file: the thrift error kinds it constructs or
classifies, plus opaque storage faults. -/
inductive WfError where
  | badRequest (msg : String)
  | internalService (msg : String)
  | entityNotExists
  | alreadyStarted
  | conditionFailed
  | conflict
  | storage (code : Nat)
deriving DecidableEq, Repr

/-- Returns `true` exactly on `WfError.internalService`. -/
def WfError.isInternalServiceError : WfError → Bool
  | .internalService _ => true
  | _ => false

/-- Go `transactionPolicy` (active / passive). -/
inductive TransactionPolicy where
  | active
  | passive
deriving DecidableEq, Repr

/-- Modelled from the spec: the mutable-state builder is outside this file,
so the opaque collaborator is parameterized by the results its methods
would produce for the single transaction being modelled (the spec's
mutable-state contract). Function-valued fields stand for methods whose
behaviour depends on the argument policy. -/
structure MState where
  executionInfo : ExecutionInfo
  replicationState : Option Int
  replicationPolicy : Nat
  isRunning : Bool
  closeAsMutation : TransactionPolicy → Except WfError (WorkflowMutation × List WorkflowEvents)
  closeAsSnapshot : TransactionPolicy → Except WfError (WorkflowSnapshot × List WorkflowEvents)
  hasBufferedEvents : Bool
  flushResult : Option WfError
  historyBuilderEvents : List HistoryEvent
  currentBranch : BranchToken
  currentVersion : Int

/-- Modelled from the spec: `UpdateReplicationStateVersion` and
`UpdateReplicationPolicy` live in the mutable-state builder outside this
file; the spec says the hook stamps the failover version and replication
policy onto the mutable state, modelled as one stamp. -/
def MState.stampReplication (m : MState) (failoverVersion : Int) (policy : Nat) : MState :=
  { m with replicationState := some failoverVersion, replicationPolicy := policy }

/-- Go `workflowExecutionContextImpl`: the cached mutable state (nullable), the
execution stats (nullable: `clear` drops both), and the optimistic-lock
token. The identity fields and injected collaborators are not state. -/
structure WfContext where
  msBuilder : Option MState
  stats : Option ExecutionStats
  updateCondition : Int

/-- Go `clear()`: drop cached mutable state and stats (`updateCondition`
survives). -/
def WfContext.clearCtx (c : WfContext) : WfContext :=
  { c with msBuilder := none, stats := none }

/-- Go `persistence.AppendHistoryEventsRequest` (legacy flat append) as built
by this file. -/
structure AppendV1Request where
  domainID : String
  workflowID : String
  runID : String
  firstEventID : Int
  eventBatchVersion : Int
  events : List HistoryEvent
deriving DecidableEq, Repr

/-- Go `persistence.AppendHistoryNodesRequest` (branch-tree append) as built by
this file. -/
structure AppendV2Request where
  isNewBranch : Bool
  info : String
  branchToken : BranchToken
  events : List HistoryEvent
deriving DecidableEq, Repr

/-- Go `persistence.UpdateWorkflowExecutionRequest` as built by this file
(RangeID and Encoding are set by the shard). -/
structure UpdateRequest where
  updateWorkflowMutation : WorkflowMutation
  newWorkflowSnapshot : Option WorkflowSnapshot
deriving DecidableEq, Repr

/-- Go `persistence.CreateWorkflowExecutionRequest` as built by this file. -/
structure CreateRequest where
  createMode : Int
  prevRunID : String
  prevLastWriteVersion : Int
  newWorkflowSnapshot : WorkflowSnapshot
deriving DecidableEq, Repr

/-- Go `persistence.ConflictResolveWorkflowExecutionRequest` as built by this
file. -/
structure ConflictResolveRequest where
  prevRunID : String
  prevLastWriteVersion : Int
  prevState : Nat
  resetWorkflowSnapshot : WorkflowSnapshot
deriving DecidableEq, Repr

/-- Go `persistence.ResetWorkflowExecutionRequest` as built by this file. -/
structure ResetRequest where
  baseRunID : String
  baseRunNextEventID : Int
  currentRunID : String
  currentRunNextEventID : Int
  currentWorkflowMutation : Option WorkflowMutation
  newWorkflowSnapshot : WorkflowSnapshot
deriving DecidableEq, Repr

/-- One storage operation issued to the shard / execution manager. -/
inductive StorageOp where
  | getExecution
  | appendV1 (req : AppendV1Request)
  | appendV2 (req : AppendV2Request)
  | createExecution (req : CreateRequest)
  | updateExecution (req : UpdateRequest)
  | conflictResolve (req : ConflictResolveRequest)
  | resetExecution (req : ResetRequest)
deriving DecidableEq, Repr

/-- Returns `true` exactly on storage-update operations. -/
def StorageOp.isUpdateExecution : StorageOp → Bool
  | .updateExecution _ => true
  | _ => false

/-- Returns `true` exactly on storage fetches of the execution row. -/
def StorageOp.isGetExecution : StorageOp → Bool
  | .getExecution => true
  | _ => false

/-- What a successful `GetWorkflowExecution` installs into the context: the
built mutable state, the persisted stats, and the persisted NextEventID. -/
structure PersistedState where
  msBuilder : MState
  stats : ExecutionStats
  nextEventID : Int

/-- The storage / shard environment: the outcome each request would get
(after the retry harness has settled), plus the cluster metadata and domain
cache reads made by this file. -/
structure ShardEnv where
  getResult : Except WfError PersistedState
  appendV1Result : AppendV1Request → Except WfError Nat
  appendV2Result : AppendV2Request → Except WfError Nat
  createResult : CreateRequest → Option WfError
  updateResult : UpdateRequest → Option WfError
  conflictResolveResult : ConflictResolveRequest → Option WfError
  resetResult : ResetRequest → Option WfError
  isGlobalDomainEnabled : Bool
  domainLookup : Except WfError (Int × Nat)

/-- Go `persistence.BuildHistoryGarbageCleanupInfo`. -/
def buildHistoryGarbageCleanupInfo (domainID workflowID runID : String) : String :=
  domainID ++ ":" ++ workflowID ++ ":" ++ runID

/-- Go `updateWorkflowExecutionWithRetry`: a condition-failed storage error is
translated to the distinguished conflict sentinel; everything else is
surfaced unchanged (the other branches differ only in logging). -/
def updateWorkflowExecutionWithRetry (env : ShardEnv) (req : UpdateRequest) : Option WfError :=
  match env.updateResult req with
  | none => none
  | some WfError.conditionFailed => some WfError.conflict
  | some e => some e

/-- Go `persistFirstWorkflowEvents`: reject an empty batch; otherwise append
via the legacy path (empty branch token) or as a new branch of the tree.
Returns the persisted byte size and the storage operations issued. -/
def persistFirstWorkflowEvents (env : ShardEnv) (we : WorkflowEvents) :
    Except WfError Int × List StorageOp :=
  match we.events with
  | [] =>
    (.error (.internalService "cannot persist first workflow events with empty events"), [])
  | firstEvent :: _ =>
    if we.branchToken.length = 0 then
      let req : AppendV1Request :=
        { domainID := we.domainID
          workflowID := we.workflowID
          runID := we.runID
          firstEventID := firstEvent.eventId
          eventBatchVersion := firstEvent.version
          events := we.events }
      ((env.appendV1Result req).map Int.ofNat, [.appendV1 req])
    else
      let req : AppendV2Request :=
        { isNewBranch := true
          info := buildHistoryGarbageCleanupInfo we.domainID we.workflowID we.runID
          branchToken := we.branchToken
          events := we.events }
      ((env.appendV2Result req).map Int.ofNat, [.appendV2 req])

/-- Go `persistNonFirstWorkflowEvents`: an empty batch is a silent no-op;
otherwise append via the legacy path or as an existing branch. -/
def persistNonFirstWorkflowEvents (env : ShardEnv) (we : WorkflowEvents) :
    Except WfError Int × List StorageOp :=
  match we.events with
  | [] => (.ok 0, [])
  | firstEvent :: _ =>
    if we.branchToken.length = 0 then
      let req : AppendV1Request :=
        { domainID := we.domainID
          workflowID := we.workflowID
          runID := we.runID
          firstEventID := firstEvent.eventId
          eventBatchVersion := firstEvent.version
          events := we.events }
      ((env.appendV1Result req).map Int.ofNat, [.appendV1 req])
    else
      let req : AppendV2Request :=
        { isNewBranch := false
          info := ""
          branchToken := we.branchToken
          events := we.events }
      ((env.appendV2Result req).map Int.ofNat, [.appendV2 req])

/-- The `for _, workflowEvents := range workflowEventsSeq` accumulation
loops of the update and reset paths: persist each batch as a non-first
batch, accumulating byte size, stopping at the first error. -/
def persistAllNonFirst (env : ShardEnv) (batches : List WorkflowEvents) (acc : Int) :
    Except WfError Int × List StorageOp :=
  match batches with
  | [] => (.ok acc, [])
  | b :: rest =>
    match persistNonFirstWorkflowEvents env b with
    | (.error e, ops) => (.error e, ops)
    | (.ok sz, ops) =>
      match persistAllNonFirst env rest (acc + sz) with
      | (r, ops2) => (r, ops ++ ops2)

/-- Go `loadWorkflowExecutionInternal`: return the cached mutable state if
present; otherwise fetch, build, and install state, stats and the
update-condition token. -/
def loadWorkflowExecutionInternal (env : ShardEnv) (c : WfContext) :
    Except WfError (MState × WfContext) × List StorageOp :=
  match c.msBuilder with
  | some m => (.ok (m, c), [])
  | none =>
    match env.getResult with
    | .error e => (.error e, [.getExecution])
    | .ok resp =>
      (.ok (resp.msBuilder,
        { c with
            msBuilder := some resp.msBuilder
            stats := some resp.stats
            updateCondition := resp.nextEventID }), [.getExecution])

/-- Go `updateVersion` (the replication policy hook): when global domains are
enabled and the workflow carries replication state and is still running,
look up the domain entry and stamp the failover version and replication
policy; otherwise leave the state untouched. -/
def updateVersion (env : ShardEnv) (m : MState) : Except WfError MState :=
  if env.isGlobalDomainEnabled ∧ m.replicationState.isSome then
    if ¬ m.isRunning then .ok m
    else
      match env.domainLookup with
      | .error e => .error e
      | .ok (failoverVersion, policy) => .ok (m.stampReplication failoverVersion policy)
  else .ok m

/-- Result of `loadWorkflowExecution`: the returned error or mutable state,
the context afterwards, and the storage operations issued. -/
structure LoadOutcome where
  err : Option WfError
  result : Option MState
  post : WfContext
  ops : List StorageOp

/-- Go `loadWorkflowExecution`: load (cached or fetched), then run the
replication policy hook; the hook mutates the cached state in place. -/
def loadWorkflowExecution (env : ShardEnv) (c : WfContext) : LoadOutcome :=
  match loadWorkflowExecutionInternal env c with
  | (.error e, ops) => ⟨some e, none, c, ops⟩
  | (.ok (m, c1), ops) =>
    match updateVersion env m with
    | .error e => ⟨some e, none, c1, ops⟩
    | .ok m' => ⟨none, some m', { c1 with msBuilder := some m' }, ops⟩

/-- Result of a Go call that may return normally (with an error value and
the post-states of the current and optional paired new context, plus the
storage trace) or abort with a runtime panic. -/
inductive UpdateOutcome where
  | ret (err : Option WfError) (post : WfContext) (postNew : Option WfContext)
      (ops : List StorageOp)
  | panic (msg : String)

/-- Result of `mergeContinueAsNewReplicationTasks`: the (possibly mutated)
current mutation and new snapshot together with the returned error, or a
runtime panic from the unchecked interface conversion. -/
inductive MergeResult where
  | ret (err : Option WfError) (cur : WorkflowMutation) (newSnap : Option WorkflowSnapshot)
  | panic (msg : String)

/-- Error message of the continue-as-new merge when the new workflow does
not carry exactly one replication task. -/
def mergeNoNewTaskMsg : String :=
  "unable to find replication task from new workflow for continue as new replication"

/-- Error message of the continue-as-new merge when the current workflow has
no history replication task to stamp. -/
def mergeNoCurTaskMsg : String :=
  "unable to find replication task from current workflow for continue as new replication"

/-- Stamp one replication task of the current mutation with the new run
branch information (body of the merge loop: only history tasks are
updated). -/
def stampNewRunInfo (branchToken : BranchToken) (eventStoreVersion : Int) :
    ReplicationTask → ReplicationTask
  | .history t =>
    .history { t with
      newRunBranchToken := branchToken
      newRunEventStoreVersion := eventStoreVersion }
  | .otherTask id => .otherTask id

/-- Returns `true` exactly on history replication tasks (the `taskUpdated` test of
the merge loop). -/
def ReplicationTask.isHistoryTask : ReplicationTask → Bool
  | .history _ => true
  | .otherTask _ => false

/-- Go `mergeContinueAsNewReplicationTasks`: no-op unless the current mutation
closed as continued-as-new with a non-empty replication-task list; then the
new snapshot must carry exactly one replication task, which is cast
(unchecked) to a history replication task whose branch token and event
store version are stamped onto every history replication task of the
current mutation, after clearing the new snapshot task list. -/
def mergeContinueAsNewReplicationTasks (cur : WorkflowMutation)
    (newSnap : Option WorkflowSnapshot) : MergeResult :=
  if cur.executionInfo.closeStatus ≠ workflowCloseStatusContinuedAsNew then
    .ret none cur newSnap
  else if cur.replicationTasks.length = 0 then
    .ret none cur newSnap
  else
    match newSnap with
    | none => .ret (some (.internalService mergeNoNewTaskMsg)) cur none
    | some snap =>
      match snap.replicationTasks with
      | [ReplicationTask.history newRunTask] =>
        let snap1 := { snap with replicationTasks := [] }
        let cur1 :=
          { cur with
              replicationTasks :=
                cur.replicationTasks.map
                  (stampNewRunInfo newRunTask.branchToken newRunTask.eventStoreVersion) }
        if cur.replicationTasks.any ReplicationTask.isHistoryTask then
          .ret none cur1 (some snap1)
        else
          .ret (some (.internalService mergeNoCurTaskMsg)) cur1 (some snap1)
      | [_] => .panic "interface conversion"
      | _ => .ret (some (.internalService mergeNoNewTaskMsg)) cur (some snap)

/-- Tail of `updateWorkflowExecutionWithNew` after both closes and appends:
continue-as-new merge, storage commit under the mutation condition, and on
success the advance of the update-condition token. The deferred clears fire
on every error return; the paired clear fires only when a new context is in
play (`newCtx` present). -/
def updateCommitTail (env : ShardEnv) (c1 : WfContext) (cur : WorkflowMutation)
    (newCtx : Option WfContext) (newSnap : Option WorkflowSnapshot)
    (ops : List StorageOp) : UpdateOutcome :=
  match mergeContinueAsNewReplicationTasks cur newSnap with
  | .panic msg => .panic msg
  | .ret (some e) _ _ =>
    .ret (some e) c1.clearCtx (newCtx.map WfContext.clearCtx) ops
  | .ret none cur1 newSnap1 =>
    let req : UpdateRequest :=
      { updateWorkflowMutation := cur1, newWorkflowSnapshot := newSnap1 }
    match updateWorkflowExecutionWithRetry env req with
    | some e =>
      .ret (some e) c1.clearCtx (newCtx.map WfContext.clearCtx)
        (ops ++ [.updateExecution req])
    | none =>
      .ret none { c1 with updateCondition := cur1.executionInfo.nextEventID } newCtx
        (ops ++ [.updateExecution req])

/-- Go `updateWorkflowExecutionWithNew`: close the current mutable state as a
mutation, append its non-first event batches accumulating history size; if
a paired new run is supplied, close it as a snapshot, persist its first
batch (indexing position 0 unchecked) and stamp its stats; then merge
continue-as-new replication tasks and commit. The outer deferred clear of
the current context covers every error return; the deferred clear of the
new context is registered only once the paired section is entered. -/
def updateWorkflowExecutionWithNew (env : ShardEnv) (c : WfContext)
    (newPair : Option (WfContext × MState × TransactionPolicy))
    (currentPolicy : TransactionPolicy) : UpdateOutcome :=
  match c.msBuilder with
  | none => .panic "nil pointer dereference"
  | some m =>
    match m.closeAsMutation currentPolicy with
    | .error e =>
      .ret (some e) c.clearCtx (newPair.map (fun p => p.1)) []
    | .ok (currentWorkflow, workflowEventsSeq) =>
      match c.stats with
      | none => .panic "nil pointer dereference"
      | some st =>
        match persistAllNonFirst env workflowEventsSeq st.historySize with
        | (.error e, ops) =>
          .ret (some e) c.clearCtx (newPair.map (fun p => p.1)) ops
        | (.ok currentWorkflowSize, ops1) =>
          let c1 : WfContext := { c with stats := some ⟨currentWorkflowSize⟩ }
          let cur1 : WorkflowMutation :=
            { currentWorkflow with executionStats := some ⟨currentWorkflowSize⟩ }
          match newPair with
          | none => updateCommitTail env c1 cur1 none none ops1
          | some (nc, nm, newPolicy) =>
            match nm.closeAsSnapshot newPolicy with
            | .error e => .ret (some e) c1.clearCtx (some nc.clearCtx) ops1
            | .ok (newWorkflow, newEventsSeq) =>
              match nc.stats with
              | none => .panic "nil pointer dereference"
              | some nst =>
                match newEventsSeq with
                | [] => .panic "index out of range"
                | firstBatch :: _ =>
                  match persistFirstWorkflowEvents env firstBatch with
                  | (.error e, ops2) =>
                    .ret (some e) c1.clearCtx (some nc.clearCtx) (ops1 ++ ops2)
                  | (.ok eventsSize, ops2) =>
                    let newSize := nst.historySize + eventsSize
                    let nc1 : WfContext := { nc with stats := some ⟨newSize⟩ }
                    let new1 : WorkflowSnapshot :=
                      { newWorkflow with executionStats := some ⟨newSize⟩ }
                    updateCommitTail env c1 cur1 (some nc1) (some new1) (ops1 ++ ops2)

/-- Result of `conflictResolveWorkflowExecution`: the returned error or
reloaded mutable state, the context afterwards, and the storage trace. -/
structure ConflictResolveOutcome where
  err : Option WfError
  result : Option MState
  post : WfContext
  ops : List StorageOp

/-- Error message when the conflict resolver produces event batches. -/
def resolverEventsMsg : String := "reset mutable state should not generate new events"

/-- Go `conflictResolveWorkflowExecution`: close the replacement state as a
snapshot under the passive policy, refuse if it produced any event batch,
stamp the supplied history size, submit the shard conflict-resolve request,
and on success clear the context and reload. -/
def conflictResolveWorkflowExecution (env : ShardEnv) (c : WfContext)
    (prevRunID : String) (prevLastWriteVersion : Int) (prevState : Nat)
    (resetMutableState : MState) (resetHistorySize : Int) : ConflictResolveOutcome :=
  match resetMutableState.closeAsSnapshot TransactionPolicy.passive with
  | .error e => ⟨some e, none, c, []⟩
  | .ok (resetWorkflow, workflowEventsSeq) =>
    if workflowEventsSeq.length ≠ 0 then
      ⟨some (.badRequest resolverEventsMsg), none, c, []⟩
    else
      let resetWorkflow1 :=
        { resetWorkflow with executionStats := some ⟨resetHistorySize⟩ }
      let req : ConflictResolveRequest :=
        { prevRunID := prevRunID
          prevLastWriteVersion := prevLastWriteVersion
          prevState := prevState
          resetWorkflowSnapshot := resetWorkflow1 }
      match env.conflictResolveResult req with
      | some e => ⟨some e, none, c, [.conflictResolve req]⟩
      | none =>
        let lo := loadWorkflowExecution env c.clearCtx
        ⟨lo.err, lo.result, lo.post, .conflictResolve req :: lo.ops⟩

/-- Go `createWorkflowExecution`: stamp the snapshot stats with the supplied
history size, submit the create request, notify on success. The context
state is never touched (in particular it is not cleared on failure). -/
def createWorkflowExecution (env : ShardEnv) (c : WfContext)
    (newWorkflow : WorkflowSnapshot) (historySize : Int)
    (createMode : Int) (prevRunID : String) (prevLastWriteVersion : Int) :
    Option WfError × WfContext × List StorageOp :=
  let req : CreateRequest :=
    { createMode := createMode
      prevRunID := prevRunID
      prevLastWriteVersion := prevLastWriteVersion
      newWorkflowSnapshot := { newWorkflow with executionStats := some ⟨historySize⟩ } }
  match env.createResult req with
  | some e => (some e, c, [.createExecution req])
  | none => (none, c, [.createExecution req])

/-- Result of `resetWorkflowExecution`. -/
inductive ResetOutcome where
  | ret (err : Option WfError) (post : WfContext) (ops : List StorageOp)
  | panic (msg : String)

/-- Error message when reset is attempted with buffered events pending on
the new mutable state. -/
def resetBufferedEventsMsg : String :=
  "reset workflow execution should not have buffered events"

/-- Error message when the reset close produces other than one batch. -/
def resetBatchCountMsg : String :=
  "reset workflow execution should generate exactly 1 event batch"

/-- Error message when the reset snapshot still carries pending child
workflows, signals or signal-requested ids. -/
def resetPendingMsg : String :=
  "something went wrong, we should not see any pending childWF, sending Signal or signal requested"

/-- The pending-state test of the reset path: any pending child execution,
signal info or signal-requested id on the snapshot. -/
def WorkflowSnapshot.hasPendingState (s : WorkflowSnapshot) : Bool :=
  decide (0 < s.childExecutionInfos.length) || decide (0 < s.signalInfos.length) ||
    decide (0 < s.signalRequestedIDs.length)

/-- Tail of `resetWorkflowExecution` after the optional current-run history
extension: close the new mutable state as a snapshot under the passive
policy, require exactly one event batch, persist it, stamp stats and
overwrite the task lists with the caller-supplied ones, refuse pending
child/signal state, build and submit the reset request
(`currentStatsHistorySize` is the context history size read when the
current mutation is built; it is only read when `updateCurr` is set). -/
def resetTail (env : ShardEnv) (c : WfContext)
    (currMutableState newMutableState : MState)
    (currTransferTasks currTimerTasks : List TaskDesc)
    (currReplicationTasks : List ReplicationTask)
    (newTransferTasks newTimerTasks : List TaskDesc)
    (newReplicationTasks : List ReplicationTask)
    (newHistorySize : Int) (baseRunID : String) (baseRunNextEventID : Int)
    (updateCurr : Bool) (currentStatsHistorySize : Int)
    (ops0 : List StorageOp) : ResetOutcome :=
  match newMutableState.closeAsSnapshot TransactionPolicy.passive with
  | .error e => .ret (some e) c ops0
  | .ok (resetWorkflow, workflowEventsSeq) =>
    if workflowEventsSeq.length ≠ 1 then
      .ret (some (.internalService resetBatchCountMsg)) c ops0
    else
      match persistAllNonFirst env workflowEventsSeq newHistorySize with
      | (.error e, ops1) => .ret (some e) c (ops0 ++ ops1)
      | (.ok newSize, ops1) =>
        let rw : WorkflowSnapshot :=
          { resetWorkflow with
              executionStats := some ⟨newSize⟩
              transferTasks := newTransferTasks
              replicationTasks := newReplicationTasks
              timerTasks := newTimerTasks }
        if rw.hasPendingState then
          .ret (some (.internalService resetPendingMsg)) c (ops0 ++ ops1)
        else
          let mutOpt : Option WorkflowMutation :=
            if updateCurr then
              some
                { executionInfo := currMutableState.executionInfo
                  executionStats := some ⟨currentStatsHistorySize⟩
                  replicationState := currMutableState.replicationState
                  transferTasks := currTransferTasks
                  timerTasks := currTimerTasks
                  replicationTasks := currReplicationTasks
                  condition := c.updateCondition }
            else none
          let req : ResetRequest :=
            { baseRunID := baseRunID
              baseRunNextEventID := baseRunNextEventID
              currentRunID := currMutableState.executionInfo.runID
              currentRunNextEventID := currMutableState.executionInfo.nextEventID
              currentWorkflowMutation := mutOpt
              newWorkflowSnapshot := rw }
          match env.resetResult req with
          | some e => .ret (some e) c (ops0 ++ ops1 ++ [.resetExecution req])
          | none => .ret none c (ops0 ++ ops1 ++ [.resetExecution req])

/-- Go `resetWorkflowExecution`: assemble the current-run close/cleanup task
lists, refuse buffered events on the new mutable state, flush buffered
events on both states, optionally extend the current run history (adding
the byte size to the context stats), then run the reset tail. Task-info
stamping (version/time on the descriptors) does not affect anything
modelled here and is elided. -/
def resetWorkflowExecution (env : ShardEnv) (c : WfContext)
    (currMutableState : MState) (updateCurr : Bool)
    (closeTask cleanupTask : Option TaskDesc)
    (newMutableState : MState) (newHistorySize : Int)
    (newTransferTasks newTimerTasks : List TaskDesc)
    (currReplicationTasks newReplicationTasks : List ReplicationTask)
    (baseRunID : String) (baseRunNextEventID : Int) : ResetOutcome :=
  let currTransferTasks : List TaskDesc :=
    match closeTask with
    | some t => [t]
    | none => []
  let currTimerTasks : List TaskDesc :=
    match cleanupTask with
    | some t => [t]
    | none => []
  if newMutableState.hasBufferedEvents then
    .ret (some (.internalService resetBufferedEventsMsg)) c []
  else
    match currMutableState.flushResult with
    | some e => .ret (some e) c []
    | none =>
      match newMutableState.flushResult with
      | some e => .ret (some e) c []
      | none =>
        if updateCurr then
          let we : WorkflowEvents :=
            { domainID := currMutableState.executionInfo.domainID
              workflowID := currMutableState.executionInfo.workflowID
              runID := currMutableState.executionInfo.runID
              branchToken := currMutableState.currentBranch
              events := currMutableState.historyBuilderEvents }
          match persistNonFirstWorkflowEvents env we with
          | (.error e, ops0) => .ret (some e) c ops0
          | (.ok size, ops0) =>
            match c.stats with
            | none => .panic "nil pointer dereference"
            | some st =>
              resetTail env { c with stats := some ⟨st.historySize + size⟩ }
                currMutableState newMutableState currTransferTasks currTimerTasks
                currReplicationTasks newTransferTasks newTimerTasks
                newReplicationTasks newHistorySize baseRunID baseRunNextEventID
                true (st.historySize + size) ops0
        else
          resetTail env c currMutableState newMutableState currTransferTasks
            currTimerTasks currReplicationTasks newTransferTasks newTimerTasks
            newReplicationTasks newHistorySize baseRunID baseRunNextEventID
            false 0 []

/-! Concrete fixtures used by witnesses and counterexamples. -/

/-- A sample execution-info record. -/
def sampleInfo : ExecutionInfo :=
  { domainID := "d1", workflowID := "w1", runID := "r1", nextEventID := 10,
    state := 1, closeStatus := 0 }

/-- The sample info closed as continued-as-new. -/
def canInfo : ExecutionInfo :=
  { sampleInfo with closeStatus := workflowCloseStatusContinuedAsNew }

/-- A history replication task of the current run. -/
def currHistTask : HistoryReplicationTask :=
  { branchToken := [1], eventStoreVersion := 1, newRunBranchToken := [],
    newRunEventStoreVersion := 0 }

/-- The single history replication task of a new run (branch token `[7, 7]`,
event store version 2). -/
def newRunHistTask : HistoryReplicationTask :=
  { branchToken := [7, 7], eventStoreVersion := 2, newRunBranchToken := [],
    newRunEventStoreVersion := 0 }

/-- A sample closed mutation with no tasks. -/
def sampleMutation : WorkflowMutation :=
  { executionInfo := sampleInfo, executionStats := none, replicationState := none,
    transferTasks := [], timerTasks := [], replicationTasks := [], condition := 10 }

/-- A sample closed snapshot with no tasks and no pending child state. -/
def sampleSnapshot : WorkflowSnapshot :=
  { executionInfo := sampleInfo, executionStats := none, replicationState := none,
    transferTasks := [], timerTasks := [], replicationTasks := [],
    childExecutionInfos := [], signalInfos := [], signalRequestedIDs := [] }

/-- A sample history event. -/
def sampleEvent : HistoryEvent := { eventId := 10, version := 0 }

/-- A legacy-path event batch holding one event. -/
def sampleBatch : WorkflowEvents :=
  { domainID := "d1", workflowID := "w1", runID := "r1", branchToken := [],
    events := [sampleEvent] }

/-- An event batch with an empty events list. -/
def emptyBatch : WorkflowEvents := { sampleBatch with events := [] }

/-- A benign mutable state: closes cleanly with no event batches. -/
def baseMState : MState :=
  { executionInfo := sampleInfo
    replicationState := none
    replicationPolicy := 0
    isRunning := true
    closeAsMutation := fun _ => .ok (sampleMutation, [])
    closeAsSnapshot := fun _ => .ok (sampleSnapshot, [])
    hasBufferedEvents := false
    flushResult := none
    historyBuilderEvents := []
    currentBranch := []
    currentVersion := 0 }

/-- A storage environment where every operation succeeds. -/
def baseEnv : ShardEnv :=
  { getResult := .ok ⟨baseMState, ⟨0⟩, 10⟩
    appendV1Result := fun _ => .ok 100
    appendV2Result := fun _ => .ok 150
    createResult := fun _ => none
    updateResult := fun _ => none
    conflictResolveResult := fun _ => none
    resetResult := fun _ => none
    isGlobalDomainEnabled := false
    domainLookup := .ok (0, 0) }

/-- A context with the benign mutable state cached. -/
def cachedCtx : WfContext :=
  { msBuilder := some baseMState, stats := some ⟨0⟩, updateCondition := 10 }

/-- A context with nothing cached. -/
def emptyCtx : WfContext :=
  { msBuilder := none, stats := some ⟨0⟩, updateCondition := 0 }

/-- A mutable state with buffered events pending. -/
def bufferedMState : MState := { baseMState with hasBufferedEvents := true }

/-! C6: reset with buffered events is refused before any storage work. -/

/-- C6: for every reset call whose new mutable state has buffered events,
the operation returns the internal buffered-events error, the context is
untouched, and no storage operation (neither a history append nor a reset)
is issued. -/
theorem c6_reset_buffered_events_rejected (env : ShardEnv) (c : WfContext)
    (currMutableState : MState) (updateCurr : Bool)
    (closeTask cleanupTask : Option TaskDesc) (newMutableState : MState)
    (newHistorySize : Int) (newTransferTasks newTimerTasks : List TaskDesc)
    (currReplicationTasks newReplicationTasks : List ReplicationTask)
    (baseRunID : String) (baseRunNextEventID : Int)
    (h : newMutableState.hasBufferedEvents = true) :
    resetWorkflowExecution env c currMutableState updateCurr closeTask cleanupTask
        newMutableState newHistorySize newTransferTasks newTimerTasks
        currReplicationTasks newReplicationTasks baseRunID baseRunNextEventID =
      .ret (some (.internalService resetBufferedEventsMsg)) c [] := by
  unfold resetWorkflowExecution
  rw [h]
  simp

/-- Witness for C6 at a concrete input. -/
theorem c6_witness :
    bufferedMState.hasBufferedEvents = true ∧
    resetWorkflowExecution baseEnv cachedCtx baseMState true none none
        bufferedMState 0 [] [] [] [] "base" 5 =
      .ret (some (.internalService resetBufferedEventsMsg)) cachedCtx [] :=
  ⟨rfl,
   c6_reset_buffered_events_rejected baseEnv cachedCtx baseMState true none none
     bufferedMState 0 [] [] [] [] "base" 5 rfl⟩

/-! C7: empty-batch behaviour of the two persist paths. -/

/-- C7: for an event batch with an empty events list, the first-batch path
returns size 0 with an internal error and issues no storage call, while the
non-first path returns size 0 with no error and issues no storage call. -/
theorem c7_empty_batch_persist (env : ShardEnv) (we : WorkflowEvents)
    (h : we.events = []) :
    persistFirstWorkflowEvents env we =
      (.error (.internalService "cannot persist first workflow events with empty events"),
        []) ∧
    persistNonFirstWorkflowEvents env we = (.ok 0, []) := by
  unfold persistFirstWorkflowEvents persistNonFirstWorkflowEvents
  rw [h]
  exact ⟨rfl, rfl⟩

/-- Witness for C7 at a concrete input. -/
theorem c7_witness :
    emptyBatch.events = [] ∧
    persistFirstWorkflowEvents baseEnv emptyBatch =
      (.error (.internalService "cannot persist first workflow events with empty events"),
        []) ∧
    persistNonFirstWorkflowEvents baseEnv emptyBatch = (.ok 0, []) :=
  ⟨rfl, (c7_empty_batch_persist baseEnv emptyBatch rfl).1,
    (c7_empty_batch_persist baseEnv emptyBatch rfl).2⟩

/-! C8: load caching discipline. -/

/-- The replication policy hook is idempotent: re-running it on its own
output reproduces that output. -/
theorem updateVersion_idem (env : ShardEnv) (m m' : MState)
    (h : updateVersion env m = .ok m') : updateVersion env m' = .ok m' := by
  unfold updateVersion at h ⊢
  by_cases h1 : env.isGlobalDomainEnabled ∧ m.replicationState.isSome
  · rw [if_pos h1] at h
    by_cases h2 : ¬ m.isRunning
    · rw [if_pos h2] at h
      injection h with h4
      subst h4
      rw [if_pos h1, if_pos h2]
    · rw [if_neg h2] at h
      rcases h3 : env.domainLookup with e | ⟨fv, p⟩
      · rw [h3] at h
        cases h
      · rw [h3] at h
        injection h with h4
        subst h4
        have hg : env.isGlobalDomainEnabled ∧
            (m.stampReplication fv p).replicationState.isSome :=
          ⟨h1.1, by simp [MState.stampReplication]⟩
        have h2' : ¬ ¬ (m.stampReplication fv p).isRunning = true := h2
        rw [if_pos hg, if_neg h2']
        rfl
  · rw [if_neg h1] at h
    injection h with h4
    subst h4
    rw [if_neg h1]

/-- A load on a context with a cached mutable state issues no storage
operation, whatever the replication hook does. -/
theorem loadCached_no_fetch (env : ShardEnv) (c : WfContext) (m : MState)
    (hm : c.msBuilder = some m) : (loadWorkflowExecution env c).ops = [] := by
  unfold loadWorkflowExecution loadWorkflowExecutionInternal
  rw [hm]
  rcases hv : updateVersion env m with e | m' <;> simp [hv]

/-- C8 (amended): starting uncached with a successful storage fetch, the
first load issues exactly the one fetch; the second load issues no storage
operation at all and returns exactly what the first load returned (the
installed state, re-stamped identically, or the same hook error); and in
general any load on a cached context issues no storage operation. -/
theorem c8_load_idempotent_amended (env : ShardEnv) (c : WfContext)
    (resp : PersistedState) (hc : c.msBuilder = none)
    (hg : env.getResult = .ok resp) :
    (loadWorkflowExecution env c).ops = [.getExecution] ∧
    (loadWorkflowExecution env (loadWorkflowExecution env c).post).ops = [] ∧
    (loadWorkflowExecution env (loadWorkflowExecution env c).post).result =
      (loadWorkflowExecution env c).result ∧
    (∀ (c' : WfContext) (m : MState), c'.msBuilder = some m →
      (loadWorkflowExecution env c').ops = []) := by
  rcases hv : updateVersion env resp.msBuilder with e | m'
  · have ho1 : loadWorkflowExecution env c =
        ⟨some e, none,
          ⟨some resp.msBuilder, some resp.stats, resp.nextEventID⟩,
          [.getExecution]⟩ := by
      simp [loadWorkflowExecution, loadWorkflowExecutionInternal, hc, hg, hv]
    have ho2 : loadWorkflowExecution env
        (⟨some resp.msBuilder, some resp.stats, resp.nextEventID⟩ : WfContext) =
        ⟨some e, none,
          ⟨some resp.msBuilder, some resp.stats, resp.nextEventID⟩, []⟩ := by
      simp [loadWorkflowExecution, loadWorkflowExecutionInternal, hv]
    refine ⟨by rw [ho1], ?_, ?_, fun c' m hm => loadCached_no_fetch env c' m hm⟩
    · simp only [ho1, ho2]
    · simp only [ho1, ho2]
  · have ho1 : loadWorkflowExecution env c =
        ⟨none, some m',
          ⟨some m', some resp.stats, resp.nextEventID⟩, [.getExecution]⟩ := by
      simp [loadWorkflowExecution, loadWorkflowExecutionInternal, hc, hg, hv]
    have hv2 : updateVersion env m' = .ok m' := updateVersion_idem env _ _ hv
    have ho2 : loadWorkflowExecution env
        (⟨some m', some resp.stats, resp.nextEventID⟩ : WfContext) =
        ⟨none, some m', ⟨some m', some resp.stats, resp.nextEventID⟩, []⟩ := by
      simp [loadWorkflowExecution, loadWorkflowExecutionInternal, hv2]
    refine ⟨by rw [ho1], ?_, ?_, fun c' m hm => loadCached_no_fetch env c' m hm⟩
    · simp only [ho1, ho2]
    · simp only [ho1, ho2]

/-- Witness for C8 (amended) at a concrete input. -/
theorem c8_witness :
    emptyCtx.msBuilder = none ∧
    (loadWorkflowExecution baseEnv emptyCtx).ops = [.getExecution] ∧
    (loadWorkflowExecution baseEnv
      (loadWorkflowExecution baseEnv emptyCtx).post).ops = [] ∧
    (loadWorkflowExecution baseEnv
        (loadWorkflowExecution baseEnv emptyCtx).post).result =
      (loadWorkflowExecution baseEnv emptyCtx).result :=
  ⟨rfl,
   (c8_load_idempotent_amended baseEnv emptyCtx ⟨baseMState, ⟨0⟩, 10⟩ rfl rfl).1,
   (c8_load_idempotent_amended baseEnv emptyCtx ⟨baseMState, ⟨0⟩, 10⟩ rfl rfl).2.1,
   (c8_load_idempotent_amended baseEnv emptyCtx ⟨baseMState, ⟨0⟩, 10⟩ rfl rfl).2.2.1⟩

/-- A cached mutable state whose replication hook will run. -/
def stampFailMState : MState := { baseMState with replicationState := some 1 }

/-- An environment where the domain-cache lookup fails while global domains
are enabled. -/
def stampFailEnv : ShardEnv :=
  { baseEnv with isGlobalDomainEnabled := true, domainLookup := .error (.storage 3) }

/-- A context caching `stampFailMState`. -/
def stampFailCtx : WfContext :=
  { msBuilder := some stampFailMState, stats := some ⟨0⟩, updateCondition := 10 }

/-- Counterexample to C8 as stated: with a mutable state cached, a running
workflow carrying replication state, global domains enabled, and a failing
domain-cache lookup, `load` does not return the cached mutable state — it
returns the lookup error (though it still performs no storage fetch). -/
theorem c8_counterexample :
    stampFailCtx.msBuilder.isSome = true ∧
    (loadWorkflowExecution stampFailEnv stampFailCtx).result = none ∧
    (loadWorkflowExecution stampFailEnv stampFailCtx).err = some (.storage 3) ∧
    (loadWorkflowExecution stampFailEnv stampFailCtx).ops = [] := by
  exact ⟨rfl, rfl, rfl, rfl⟩

/-! C5: the conflict resolver must not produce event batches. -/

/-- C5 (amended): when the replacement mutable state, closed as a snapshot
under the passive policy, produces one or more event batches, the
conflict-resolve call fails with the bad-request resolver-events error and
issues no storage operation (so the error never reaches any retried storage
call), leaving the context untouched. -/
theorem c5_conflict_resolve_rejects_events_amended (env : ShardEnv) (c : WfContext)
    (prevRunID : String) (prevLastWriteVersion : Int) (prevState : Nat)
    (resetMutableState : MState) (resetHistorySize : Int)
    (rwf : WorkflowSnapshot) (seq : List WorkflowEvents)
    (hclose : resetMutableState.closeAsSnapshot TransactionPolicy.passive =
      .ok (rwf, seq))
    (hne : seq ≠ []) :
    conflictResolveWorkflowExecution env c prevRunID prevLastWriteVersion prevState
        resetMutableState resetHistorySize =
      ⟨some (.badRequest resolverEventsMsg), none, c, []⟩ := by
  have hlen : seq.length ≠ 0 := by simpa [List.length_eq_zero] using hne
  simp only [conflictResolveWorkflowExecution, hclose, if_pos hlen]

/-- A mutable state whose snapshot close produces one event batch. -/
def resolverWithEventsMState : MState :=
  { baseMState with closeAsSnapshot := fun _ => .ok (sampleSnapshot, [sampleBatch]) }

/-- Witness for C5 (amended) at a concrete input. -/
theorem c5_witness :
    resolverWithEventsMState.closeAsSnapshot TransactionPolicy.passive =
      .ok (sampleSnapshot, [sampleBatch]) ∧
    conflictResolveWorkflowExecution baseEnv cachedCtx "prev" 0 1
        resolverWithEventsMState 5 =
      ⟨some (.badRequest resolverEventsMsg), none, cachedCtx, []⟩ :=
  ⟨rfl,
   c5_conflict_resolve_rejects_events_amended baseEnv cachedCtx "prev" 0 1
     resolverWithEventsMState 5 sampleSnapshot [sampleBatch] rfl
     (List.cons_ne_nil _ _)⟩

/-- Counterexample to C5 as stated: the resolver-produced-events failure is
a bad-request error, not an internal error (and no storage operation is
issued before it). -/
theorem c5_counterexample :
    (conflictResolveWorkflowExecution baseEnv cachedCtx "prev" 0 1
        resolverWithEventsMState 5).err = some (.badRequest resolverEventsMsg) ∧
    ((conflictResolveWorkflowExecution baseEnv cachedCtx "prev" 0 1
        resolverWithEventsMState 5).err.map WfError.isInternalServiceError) =
      some false ∧
    (conflictResolveWorkflowExecution baseEnv cachedCtx "prev" 0 1
        resolverWithEventsMState 5).ops = [] := by
  exact ⟨rfl, rfl, rfl⟩

/-! Helper lemmas about the continue-as-new merge and the append loops. -/

/-- A stamped task that is a history task carries the stamped new-run
fields. -/
theorem stampNewRunInfo_history (b : BranchToken) (v : Int) (x : ReplicationTask)
    (ht : HistoryReplicationTask) (h : stampNewRunInfo b v x = .history ht) :
    ht.newRunBranchToken = b ∧ ht.newRunEventStoreVersion = v := by
  cases x with
  | history t =>
    simp only [stampNewRunInfo, ReplicationTask.history.injEq] at h
    subst h
    exact ⟨rfl, rfl⟩
  | otherTask id => simp [stampNewRunInfo] at h

/-- The merge never touches the execution info or the condition of the
current mutation. -/
theorem merge_preserves_mutation_identity (cur : WorkflowMutation)
    (newSnap : Option WorkflowSnapshot) (e : Option WfError)
    (cur' : WorkflowMutation) (snap' : Option WorkflowSnapshot)
    (h : mergeContinueAsNewReplicationTasks cur newSnap = .ret e cur' snap') :
    cur'.executionInfo = cur.executionInfo ∧ cur'.condition = cur.condition := by
  unfold mergeContinueAsNewReplicationTasks at h
  repeat' split at h
  all_goals cases h
  all_goals exact ⟨rfl, rfl⟩

/-- The non-first persist issues no storage-update operation. -/
theorem persistNonFirst_no_update_op (env : ShardEnv) (we : WorkflowEvents)
    (r : Except WfError Int) (ops : List StorageOp)
    (h : persistNonFirstWorkflowEvents env we = (r, ops)) :
    ∀ op ∈ ops, op.isUpdateExecution = false := by
  unfold persistNonFirstWorkflowEvents at h
  split at h
  · cases h
    intro op hop
    simp at hop
  · split at h <;> (cases h; intro op hop; simp at hop; subst hop; rfl)

/-- The non-first append loop issues no storage-update operation. -/
theorem persistAllNonFirst_no_update_op (env : ShardEnv) :
    ∀ (batches : List WorkflowEvents) (acc : Int) (r : Except WfError Int)
      (ops : List StorageOp), persistAllNonFirst env batches acc = (r, ops) →
      ∀ op ∈ ops, op.isUpdateExecution = false := by
  intro batches
  induction batches with
  | nil =>
    intro acc r ops h op hop
    unfold persistAllNonFirst at h
    cases h
    simp at hop
  | cons b rest ih =>
    intro acc r ops h op hop
    unfold persistAllNonFirst at h
    rcases hp : persistNonFirstWorkflowEvents env b with ⟨rb, opsb⟩
    rw [hp] at h
    cases rb with
    | error e =>
      cases h
      exact persistNonFirst_no_update_op env b _ _ hp op hop
    | ok sz =>
      simp only [] at h
      rcases hr : persistAllNonFirst env rest (acc + sz) with ⟨r2, ops2⟩
      rw [hr] at h
      cases h
      rcases List.mem_append.mp hop with h1 | h2
      · exact persistNonFirst_no_update_op env b _ _ hp op h1
      · exact ih (acc + sz) r2 ops2 hr op h2

/-! C3: continue-as-new replication-task merge. -/

/-- C3: (i) when the current mutation did not close as continued-as-new, or
carries no replication tasks, the merge changes nothing; (ii) when it did
and the new snapshot carries exactly one history replication task, the merge
empties the new snapshot task list and stamps that task's branch token and
event store version onto every history replication task of the current
mutation; (iii) when the new snapshot is absent or carries a number of
replication tasks other than one, the merge returns the internal
missing-new-task error and leaves both sides unchanged; (iv) at the commit
level, a continue-as-new active update without a paired new workflow fails
with that internal error and issues no storage update. -/
theorem c3_continue_as_new_merge (cur : WorkflowMutation) :
    (∀ newSnap, (cur.executionInfo.closeStatus ≠ workflowCloseStatusContinuedAsNew ∨
        cur.replicationTasks = []) →
      mergeContinueAsNewReplicationTasks cur newSnap = .ret none cur newSnap) ∧
    (∀ (snap : WorkflowSnapshot) (t : HistoryReplicationTask),
      cur.executionInfo.closeStatus = workflowCloseStatusContinuedAsNew →
      cur.replicationTasks ≠ [] →
      snap.replicationTasks = [.history t] →
      ∃ e cur' snap',
        mergeContinueAsNewReplicationTasks cur (some snap) = .ret e cur' snap' ∧
        snap' = some { snap with replicationTasks := [] } ∧
        (∀ ht, ReplicationTask.history ht ∈ cur'.replicationTasks →
          ht.newRunBranchToken = t.branchToken ∧
          ht.newRunEventStoreVersion = t.eventStoreVersion)) ∧
    (∀ newSnap, cur.executionInfo.closeStatus = workflowCloseStatusContinuedAsNew →
      cur.replicationTasks ≠ [] →
      (newSnap = none ∨
        ∃ snap, newSnap = some snap ∧ snap.replicationTasks.length ≠ 1) →
      mergeContinueAsNewReplicationTasks cur newSnap =
        .ret (some (.internalService mergeNoNewTaskMsg)) cur newSnap) ∧
    (∀ (env : ShardEnv) (c : WfContext) (m : MState) (pol : TransactionPolicy)
      (seq : List WorkflowEvents) (st : ExecutionStats) (sz : Int)
      (ops1 : List StorageOp),
      c.msBuilder = some m → c.stats = some st →
      m.closeAsMutation pol = .ok (cur, seq) →
      persistAllNonFirst env seq st.historySize = (.ok sz, ops1) →
      cur.executionInfo.closeStatus = workflowCloseStatusContinuedAsNew →
      cur.replicationTasks ≠ [] →
      updateWorkflowExecutionWithNew env c none pol =
          .ret (some (.internalService mergeNoNewTaskMsg))
            (WfContext.clearCtx { c with stats := some ⟨sz⟩ }) none ops1 ∧
        ∀ op ∈ ops1, op.isUpdateExecution = false) := by
  refine ⟨?_, ?_, ?_, ?_⟩
  · intro newSnap h
    unfold mergeContinueAsNewReplicationTasks
    rcases h with h | h
    · rw [if_pos h]
    · by_cases h1 : cur.executionInfo.closeStatus ≠ workflowCloseStatusContinuedAsNew
      · rw [if_pos h1]
      · rw [if_neg h1, if_pos (by simp [h])]
  · intro snap t hcs hne hsnap
    have h1 : ¬ (cur.executionInfo.closeStatus ≠ workflowCloseStatusContinuedAsNew) :=
      not_not_intro hcs
    have h2 : ¬ (cur.replicationTasks.length = 0) := by
      simpa [List.length_eq_zero] using hne
    by_cases hany : cur.replicationTasks.any ReplicationTask.isHistoryTask = true
    · refine ⟨none,
        { cur with replicationTasks := cur.replicationTasks.map (stampNewRunInfo t.branchToken t.eventStoreVersion) },
        some { snap with replicationTasks := [] }, ?_, rfl, ?_⟩
      · simp only [mergeContinueAsNewReplicationTasks, if_neg h1, if_neg h2, hsnap,
          if_pos hany]
      · intro ht hmem
        rcases List.mem_map.mp hmem with ⟨x, _, hxe⟩
        exact stampNewRunInfo_history _ _ x ht hxe
    · refine ⟨some (.internalService mergeNoCurTaskMsg),
        { cur with replicationTasks := cur.replicationTasks.map (stampNewRunInfo t.branchToken t.eventStoreVersion) },
        some { snap with replicationTasks := [] }, ?_, rfl, ?_⟩
      · simp only [mergeContinueAsNewReplicationTasks, if_neg h1, if_neg h2, hsnap,
          if_neg hany]
      · intro ht hmem
        rcases List.mem_map.mp hmem with ⟨x, _, hxe⟩
        exact stampNewRunInfo_history _ _ x ht hxe
  · intro newSnap hcs hne hbad
    have h1 : ¬ (cur.executionInfo.closeStatus ≠ workflowCloseStatusContinuedAsNew) :=
      not_not_intro hcs
    have h2 : ¬ (cur.replicationTasks.length = 0) := by
      simpa [List.length_eq_zero] using hne
    rcases hbad with rfl | ⟨snap, rfl, hlen⟩
    · simp only [mergeContinueAsNewReplicationTasks, if_neg h1, if_neg h2]
    · simp only [mergeContinueAsNewReplicationTasks, if_neg h1, if_neg h2]
      rcases hsnap : snap.replicationTasks with _ | ⟨t0, rest⟩
      · rfl
      · rcases rest with _ | ⟨t1, rest2⟩
        · rw [hsnap] at hlen
          simp at hlen
        · cases t0 <;> rfl
  · intro env c m pol seq st sz ops1 hm hstats hclose hpersist hcs hne
    have h1 : ¬ (cur.executionInfo.closeStatus ≠ workflowCloseStatusContinuedAsNew) :=
      not_not_intro hcs
    have h2 : ¬ (cur.replicationTasks.length = 0) := by
      simpa [List.length_eq_zero] using hne
    refine ⟨?_, persistAllNonFirst_no_update_op env seq st.historySize _ _ hpersist⟩
    simp only [updateWorkflowExecutionWithNew, hm, hclose, hstats, hpersist,
      updateCommitTail, mergeContinueAsNewReplicationTasks, Option.map_none,
      if_neg h1, if_neg h2]
    rfl

/-- A continued-as-new current mutation carrying one history replication
task. -/
def curCanMutation : WorkflowMutation :=
  { sampleMutation with
      executionInfo := canInfo
      replicationTasks := [.history currHistTask] }

/-- A new-run snapshot carrying exactly one history replication task. -/
def newRunSnapshot : WorkflowSnapshot :=
  { sampleSnapshot with replicationTasks := [.history newRunHistTask] }

/-- A new-run snapshot whose single replication task is not a history
replication task. -/
def otherTaskSnapshot : WorkflowSnapshot :=
  { sampleSnapshot with replicationTasks := [.otherTask 3] }

/-- Witness for C3 at a concrete input: a continue-as-new active mutation
merged with a snapshot carrying one history replication task. -/
theorem c3_witness :
    curCanMutation.executionInfo.closeStatus = workflowCloseStatusContinuedAsNew ∧
    curCanMutation.replicationTasks ≠ [] ∧
    newRunSnapshot.replicationTasks = [.history newRunHistTask] ∧
    (∃ e cur' snap',
      mergeContinueAsNewReplicationTasks curCanMutation (some newRunSnapshot) =
        .ret e cur' snap' ∧
      snap' = some { newRunSnapshot with replicationTasks := [] } ∧
      (∀ ht, ReplicationTask.history ht ∈ cur'.replicationTasks →
        ht.newRunBranchToken = newRunHistTask.branchToken ∧
        ht.newRunEventStoreVersion = newRunHistTask.eventStoreVersion)) :=
  ⟨rfl, List.cons_ne_nil _ _, rfl,
    (c3_continue_as_new_merge curCanMutation).2.1 newRunSnapshot newRunHistTask rfl
      (List.cons_ne_nil _ _) rfl⟩

/-! C10: the unchecked interface conversion in the merge. -/

/-- C10: after only the count check, the new snapshot's single replication
task is cast unchecked: if it is not a history replication task the merge
panics with a failed interface conversion; if it is, the merge never
panics. -/
theorem c10_merge_unchecked_cast (cur : WorkflowMutation) :
    (∀ (snap : WorkflowSnapshot) (k : Nat),
      cur.executionInfo.closeStatus = workflowCloseStatusContinuedAsNew →
      cur.replicationTasks ≠ [] →
      snap.replicationTasks = [.otherTask k] →
      mergeContinueAsNewReplicationTasks cur (some snap) =
        .panic "interface conversion") ∧
    (∀ (snap : WorkflowSnapshot) (t : HistoryReplicationTask) (msg : String),
      snap.replicationTasks = [.history t] →
      mergeContinueAsNewReplicationTasks cur (some snap) ≠ .panic msg) := by
  constructor
  · intro snap k hcs hne hsnap
    have h1 : ¬ (cur.executionInfo.closeStatus ≠ workflowCloseStatusContinuedAsNew) :=
      not_not_intro hcs
    have h2 : ¬ (cur.replicationTasks.length = 0) := by
      simpa [List.length_eq_zero] using hne
    simp only [mergeContinueAsNewReplicationTasks, if_neg h1, if_neg h2, hsnap]
  · intro snap t msg hsnap
    unfold mergeContinueAsNewReplicationTasks
    by_cases h1 : cur.executionInfo.closeStatus ≠ workflowCloseStatusContinuedAsNew
    · rw [if_pos h1]
      simp
    · rw [if_neg h1]
      by_cases h2 : cur.replicationTasks.length = 0
      · rw [if_pos h2]
        simp
      · rw [if_neg h2]
        simp only [hsnap]
        by_cases hany : cur.replicationTasks.any ReplicationTask.isHistoryTask = true
        · simp [hany]
        · simp [hany]

/-- Witness for C10 at concrete inputs: the non-history single task panics,
the history single task does not. -/
theorem c10_witness :
    curCanMutation.executionInfo.closeStatus = workflowCloseStatusContinuedAsNew ∧
    curCanMutation.replicationTasks ≠ [] ∧
    otherTaskSnapshot.replicationTasks = [.otherTask 3] ∧
    mergeContinueAsNewReplicationTasks curCanMutation (some otherTaskSnapshot) =
      .panic "interface conversion" ∧
    newRunSnapshot.replicationTasks = [.history newRunHistTask] ∧
    mergeContinueAsNewReplicationTasks curCanMutation (some newRunSnapshot) ≠
      .panic "interface conversion" :=
  ⟨rfl, List.cons_ne_nil _ _, rfl,
    (c10_merge_unchecked_cast curCanMutation).1 otherTaskSnapshot 3 rfl
      (List.cons_ne_nil _ _) rfl,
    rfl,
    (c10_merge_unchecked_cast curCanMutation).2 newRunSnapshot newRunHistTask
      "interface conversion" rfl⟩

/-! Helper lemmas about the update commit path. -/

/-- Every error return of the commit tail leaves the current context cleared
and the paired context (when in play) cleared. -/
theorem updateCommitTail_error_clears (env : ShardEnv) (c1 : WfContext)
    (cur : WorkflowMutation) (newCtx : Option WfContext)
    (newSnap : Option WorkflowSnapshot) (ops : List StorageOp) (e : WfError)
    (post : WfContext) (postNew : Option WfContext) (ops' : List StorageOp)
    (h : updateCommitTail env c1 cur newCtx newSnap ops =
      .ret (some e) post postNew ops') :
    post = c1.clearCtx ∧ postNew = newCtx.map WfContext.clearCtx := by
  unfold updateCommitTail at h
  split at h
  · cases h
  · cases h
    exact ⟨rfl, rfl⟩
  · dsimp only [] at h
    split at h
    · cases h
      exact ⟨rfl, rfl⟩
    · cases h

/-- The merge only ever panics with the failed interface conversion. -/
theorem merge_panic_msg (cur : WorkflowMutation) (newSnap : Option WorkflowSnapshot)
    (msg : String) (h : mergeContinueAsNewReplicationTasks cur newSnap = .panic msg) :
    msg = "interface conversion" := by
  unfold mergeContinueAsNewReplicationTasks at h
  repeat' split at h
  all_goals cases h
  all_goals rfl

/-- The commit tail only ever panics with the failed interface conversion. -/
theorem updateCommitTail_panic_msg (env : ShardEnv) (c1 : WfContext)
    (cur : WorkflowMutation) (newCtx : Option WfContext)
    (newSnap : Option WorkflowSnapshot) (ops : List StorageOp) (msg : String)
    (h : updateCommitTail env c1 cur newCtx newSnap ops = .panic msg) :
    msg = "interface conversion" := by
  unfold updateCommitTail at h
  split at h
  · next msg0 heq =>
    cases h
    exact merge_panic_msg _ _ _ heq
  · cases h
  · dsimp only [] at h
    split at h
    · cases h
    · cases h

/-- Every successful commit tail advances the update condition to the
mutation's NextEventID, keeps the cache, and issued exactly one storage
update carrying the mutation's condition and NextEventID. -/
theorem updateCommitTail_success (env : ShardEnv) (c1 : WfContext)
    (cur : WorkflowMutation) (newCtx : Option WfContext)
    (newSnap : Option WorkflowSnapshot) (ops : List StorageOp)
    (post : WfContext) (postNew : Option WfContext) (ops' : List StorageOp)
    (h : updateCommitTail env c1 cur newCtx newSnap ops =
      .ret none post postNew ops') :
    post.updateCondition = cur.executionInfo.nextEventID ∧
    post.msBuilder = c1.msBuilder ∧ post.stats = c1.stats ∧
    ∃ req, ops' = ops ++ [.updateExecution req] ∧
      req.updateWorkflowMutation.condition = cur.condition ∧
      req.updateWorkflowMutation.executionInfo = cur.executionInfo := by
  unfold updateCommitTail at h
  split at h
  · cases h
  · cases h
  · next cur1 newSnap1 heq =>
    obtain ⟨hinfo, hcond⟩ := merge_preserves_mutation_identity _ _ _ _ _ heq
    dsimp only [] at h
    split at h
    · cases h
    · cases h
      refine ⟨by rw [hinfo], rfl, rfl, ⟨cur1, newSnap1⟩, rfl, hcond, hinfo⟩

/-- Every error return of the update path leaves the current context's cache
and stats cleared. -/
theorem update_error_clears_current (env : ShardEnv) (c : WfContext)
    (newPair : Option (WfContext × MState × TransactionPolicy))
    (pol : TransactionPolicy) (e : WfError) (post : WfContext)
    (postNew : Option WfContext) (ops : List StorageOp)
    (h : updateWorkflowExecutionWithNew env c newPair pol =
      .ret (some e) post postNew ops) :
    post.msBuilder = none ∧ post.stats = none := by
  unfold updateWorkflowExecutionWithNew at h
  split at h
  · cases h
  · split at h
    · cases h
      exact ⟨rfl, rfl⟩
    · split at h
      · cases h
      · split at h
        · cases h
          exact ⟨rfl, rfl⟩
        · split at h
          · obtain ⟨h1, _⟩ := updateCommitTail_error_clears _ _ _ _ _ _ _ _ _ _ h
            rw [h1]
            exact ⟨rfl, rfl⟩
          · split at h
            · cases h
              exact ⟨rfl, rfl⟩
            · split at h
              · cases h
              · split at h
                · cases h
                · split at h
                  · cases h
                    exact ⟨rfl, rfl⟩
                  · obtain ⟨h1, _⟩ :=
                      updateCommitTail_error_clears _ _ _ _ _ _ _ _ _ _ h
                    rw [h1]
                    exact ⟨rfl, rfl⟩

/-! C2: clearing discipline of the paired update. -/

/-- C2 (amended): in a paired update, an error arising at or after the new
run's close (new close, first-batch append, merge, storage commit) clears
both the current and the new context; but an error from the current close
(before the paired section registers its deferred clear) clears only the
current context and leaves the paired new context untouched. -/
theorem c2_paired_clear_amended :
    (∀ (env : ShardEnv) (c : WfContext) (m : MState) (pol : TransactionPolicy)
      (nc : WfContext) (nm : MState) (npol : TransactionPolicy)
      (cw : WorkflowMutation) (seq : List WorkflowEvents) (st : ExecutionStats)
      (sz : Int) (ops1 : List StorageOp) (e : WfError) (post : WfContext)
      (postNew : Option WfContext) (ops : List StorageOp),
      c.msBuilder = some m → c.stats = some st →
      m.closeAsMutation pol = .ok (cw, seq) →
      persistAllNonFirst env seq st.historySize = (.ok sz, ops1) →
      updateWorkflowExecutionWithNew env c (some (nc, nm, npol)) pol =
        .ret (some e) post postNew ops →
      post.msBuilder = none ∧ post.stats = none ∧
      ∃ ncp, postNew = some ncp ∧ ncp.msBuilder = none ∧ ncp.stats = none) ∧
    (∀ (env : ShardEnv) (c : WfContext) (m : MState) (pol : TransactionPolicy)
      (nc : WfContext) (nm : MState) (npol : TransactionPolicy) (e : WfError),
      c.msBuilder = some m → m.closeAsMutation pol = .error e →
      updateWorkflowExecutionWithNew env c (some (nc, nm, npol)) pol =
        .ret (some e) c.clearCtx (some nc) []) := by
  constructor
  · intro env c m pol nc nm npol cw seq st sz ops1 e post postNew ops
      hm hstats hclose hpersist h
    simp only [updateWorkflowExecutionWithNew, hm, hclose, hstats, hpersist] at h
    split at h
    · cases h
      exact ⟨rfl, rfl, _, rfl, rfl, rfl⟩
    · split at h
      · cases h
      · split at h
        · cases h
        · split at h
          · cases h
            exact ⟨rfl, rfl, _, rfl, rfl, rfl⟩
          · obtain ⟨h1, h2⟩ := updateCommitTail_error_clears _ _ _ _ _ _ _ _ _ _ h
            subst h1
            subst h2
            exact ⟨rfl, rfl, _, rfl, rfl, rfl⟩
  · intro env c m pol nc nm npol e hm hcloseErr
    simp only [updateWorkflowExecutionWithNew, hm, hcloseErr]
    rfl

/-- A mutable state whose mutation close fails. -/
def closeMutFailMState : MState :=
  { baseMState with closeAsMutation := fun _ => .error (.storage 4) }

/-- A context caching `closeMutFailMState`. -/
def closeMutFailCtx : WfContext :=
  { msBuilder := some closeMutFailMState, stats := some ⟨0⟩, updateCondition := 10 }

/-- Counterexample to C2 as stated: a paired update whose current-workflow
close fails (an error before the storage commit) returns the error with the
current context cleared but the paired new context still fully cached. -/
theorem c2_counterexample :
    updateWorkflowExecutionWithNew baseEnv closeMutFailCtx
        (some (cachedCtx, baseMState, TransactionPolicy.active))
        TransactionPolicy.active =
      .ret (some (.storage 4)) closeMutFailCtx.clearCtx (some cachedCtx) [] ∧
    cachedCtx.msBuilder.isSome = true ∧ cachedCtx.stats.isSome = true := by
  exact ⟨rfl, rfl, rfl⟩

/-- A fresh paired-run context. -/
def c2pairNewCtx : WfContext :=
  { msBuilder := some baseMState, stats := some ⟨0⟩, updateCondition := 2 }

/-- A new-run mutable state whose snapshot close yields one empty event
batch (so the first-batch append fails). -/
def emptyFirstBatchMState : MState :=
  { baseMState with closeAsSnapshot := fun _ => .ok (sampleSnapshot, [emptyBatch]) }

/-- Witness for C2 (amended) at a concrete input: a paired update failing in
the first-batch append clears both contexts. -/
theorem c2_witness :
    cachedCtx.msBuilder = some baseMState ∧
    (WfContext.clearCtx cachedCtx).msBuilder = none ∧
    (WfContext.clearCtx cachedCtx).stats = none ∧
    ∃ ncp, (some (WfContext.clearCtx c2pairNewCtx) : Option WfContext) = some ncp ∧
      ncp.msBuilder = none ∧ ncp.stats = none :=
  ⟨rfl,
    (c2_paired_clear_amended.1 baseEnv cachedCtx baseMState TransactionPolicy.active
      c2pairNewCtx emptyFirstBatchMState TransactionPolicy.passive sampleMutation []
      ⟨0⟩ 0 []
      (.internalService "cannot persist first workflow events with empty events")
      (WfContext.clearCtx cachedCtx) (some (WfContext.clearCtx c2pairNewCtx)) []
      rfl rfl rfl rfl rfl).1,
    (c2_paired_clear_amended.1 baseEnv cachedCtx baseMState TransactionPolicy.active
      c2pairNewCtx emptyFirstBatchMState TransactionPolicy.passive sampleMutation []
      ⟨0⟩ 0 []
      (.internalService "cannot persist first workflow events with empty events")
      (WfContext.clearCtx cachedCtx) (some (WfContext.clearCtx c2pairNewCtx)) []
      rfl rfl rfl rfl rfl).2.1,
    (c2_paired_clear_amended.1 baseEnv cachedCtx baseMState TransactionPolicy.active
      c2pairNewCtx emptyFirstBatchMState TransactionPolicy.passive sampleMutation []
      ⟨0⟩ 0 []
      (.internalService "cannot persist first workflow events with empty events")
      (WfContext.clearCtx cachedCtx) (some (WfContext.clearCtx c2pairNewCtx)) []
      rfl rfl rfl rfl rfl).2.2⟩

/-! C4: successful update commits advance the update condition. -/

/-- C4: a successful update commit submits the storage update under the
closed mutation's condition (which the mutable-state contract equates with
the context's update condition), and afterwards the context's update
condition equals the committed mutation's NextEventID; when the close
produced at least one event batch (which the contract says advances
NextEventID past the condition), the new update condition is strictly
greater than the old one. The two contract hypotheses are modelled from the
spec because the mutable-state builder is outside this file. -/
theorem c4_update_advances_condition (env : ShardEnv) (c : WfContext) (m : MState)
    (pol : TransactionPolicy)
    (newPair : Option (WfContext × MState × TransactionPolicy))
    (cw : WorkflowMutation) (seq : List WorkflowEvents) (post : WfContext)
    (postNew : Option WfContext) (ops : List StorageOp)
    (hm : c.msBuilder = some m)
    (hclose : m.closeAsMutation pol = .ok (cw, seq))
    (hcond : cw.condition = c.updateCondition)
    (hadv : seq ≠ [] → cw.condition < cw.executionInfo.nextEventID)
    (hrun : updateWorkflowExecutionWithNew env c newPair pol =
      .ret none post postNew ops) :
    post.updateCondition = cw.executionInfo.nextEventID ∧
    (∃ req, StorageOp.updateExecution req ∈ ops ∧
      req.updateWorkflowMutation.condition = c.updateCondition ∧
      req.updateWorkflowMutation.executionInfo.nextEventID =
        cw.executionInfo.nextEventID) ∧
    (seq ≠ [] → c.updateCondition < post.updateCondition) := by
  simp only [updateWorkflowExecutionWithNew, hm, hclose] at hrun
  split at hrun
  · cases hrun
  · split at hrun
    · cases hrun
    · split at hrun
      · obtain ⟨huc, _, _, req, hops, hreqc, hreqi⟩ :=
          updateCommitTail_success _ _ _ _ _ _ _ _ _ hrun
        have hpost : post.updateCondition = cw.executionInfo.nextEventID := huc
        refine ⟨hpost, ⟨req, by rw [hops]; simp, hreqc.trans hcond, by rw [hreqi]⟩, ?_⟩
        intro hne
        have h3 := hadv hne
        rw [hpost, ← hcond]
        exact h3
      · split at hrun
        · cases hrun
        · split at hrun
          · cases hrun
          · split at hrun
            · cases hrun
            · split at hrun
              · cases hrun
              · obtain ⟨huc, _, _, req, hops, hreqc, hreqi⟩ :=
                  updateCommitTail_success _ _ _ _ _ _ _ _ _ hrun
                have hpost : post.updateCondition = cw.executionInfo.nextEventID := huc
                refine ⟨hpost,
                  ⟨req, by rw [hops]; simp, hreqc.trans hcond, by rw [hreqi]⟩, ?_⟩
                intro hne
                have h3 := hadv hne
                rw [hpost, ← hcond]
                exact h3

/-- A mutable state closing as a mutation with NextEventID 12 and one event
batch, from condition 10. -/
def advancingMState : MState :=
  { baseMState with
      closeAsMutation := fun _ =>
        .ok ({ sampleMutation with
                executionInfo := { sampleInfo with nextEventID := 12 } },
          [sampleBatch]) }

/-- A context caching `advancingMState` at update condition 10. -/
def advancingCtx : WfContext :=
  { msBuilder := some advancingMState, stats := some ⟨0⟩, updateCondition := 10 }

/-- Witness for C4 at a concrete input. -/
theorem c4_witness :
    (∃ req, StorageOp.updateExecution req ∈
        [StorageOp.appendV1 ⟨"d1", "w1", "r1", 10, 0, [sampleEvent]⟩,
          StorageOp.updateExecution
            ⟨{ sampleMutation with
                executionInfo := { sampleInfo with nextEventID := 12 }
                executionStats := some ⟨100⟩ }, none⟩] ∧
      req.updateWorkflowMutation.condition = advancingCtx.updateCondition ∧
      req.updateWorkflowMutation.executionInfo.nextEventID = 12) ∧
    (10 : Int) < 12 :=
  ⟨(c4_update_advances_condition baseEnv advancingCtx advancingMState
      TransactionPolicy.active none
      { sampleMutation with executionInfo := { sampleInfo with nextEventID := 12 } }
      [sampleBatch]
      { msBuilder := some advancingMState, stats := some ⟨100⟩, updateCondition := 12 }
      none
      [StorageOp.appendV1 ⟨"d1", "w1", "r1", 10, 0, [sampleEvent]⟩,
        StorageOp.updateExecution
          ⟨{ sampleMutation with
              executionInfo := { sampleInfo with nextEventID := 12 }
              executionStats := some ⟨100⟩ }, none⟩]
      rfl rfl rfl (fun _ => by decide) rfl).2.1,
   by decide⟩

/-! C9: the unchecked indexing of the new run's first event batch. -/

/-- C9: in a paired update, once the new run's snapshot close succeeds the
returned batch sequence is indexed at position 0 without a length check:
if the close produces no batches the call aborts with an index-out-of-range
panic; if it produces at least one batch, no such panic can arise anywhere
in the call. -/
theorem c9_paired_update_first_batch_index (env : ShardEnv) (c : WfContext)
    (nc : WfContext) (nm : MState) (npol : TransactionPolicy)
    (pol : TransactionPolicy) :
    (∀ (m : MState) (st nst : ExecutionStats) (cw : WorkflowMutation)
      (seq : List WorkflowEvents) (sz : Int) (ops1 : List StorageOp)
      (nw : WorkflowSnapshot),
      c.msBuilder = some m → c.stats = some st →
      m.closeAsMutation pol = .ok (cw, seq) →
      persistAllNonFirst env seq st.historySize = (.ok sz, ops1) →
      nm.closeAsSnapshot npol = .ok (nw, []) →
      nc.stats = some nst →
      updateWorkflowExecutionWithNew env c (some (nc, nm, npol)) pol =
        .panic "index out of range") ∧
    (∀ (nw : WorkflowSnapshot) (b : WorkflowEvents) (rest : List WorkflowEvents),
      nm.closeAsSnapshot npol = .ok (nw, b :: rest) →
      updateWorkflowExecutionWithNew env c (some (nc, nm, npol)) pol ≠
        .panic "index out of range") := by
  constructor
  · intro m st nst cw seq sz ops1 nw hm hstats hclose hpersist hnclose hnstats
    simp only [updateWorkflowExecutionWithNew, hm, hclose, hstats, hpersist,
      hnclose, hnstats]
  · intro nw b rest hnclose h
    unfold updateWorkflowExecutionWithNew at h
    split at h
    · injection h with h'
      exact absurd h' (by decide)
    · split at h
      · cases h
      · split at h
        · injection h with h'
          exact absurd h' (by decide)
        · split at h
          · cases h
          · dsimp only [] at h
            rw [hnclose] at h
            dsimp only [] at h
            split at h
            · injection h with h'
              exact absurd h' (by decide)
            · split at h
              · cases h
              · have hmsg := updateCommitTail_panic_msg _ _ _ _ _ _ _ h
                exact absurd hmsg (by decide)

/-- A new-run mutable state whose snapshot close produces no event batch. -/
def emptySeqSnapshotMState : MState :=
  { baseMState with closeAsSnapshot := fun _ => .ok (sampleSnapshot, []) }

/-- Witness for C9 at concrete inputs: a paired update panics on an empty
new-run batch sequence and does not on a non-empty one. -/
theorem c9_witness :
    emptySeqSnapshotMState.closeAsSnapshot TransactionPolicy.passive =
      .ok (sampleSnapshot, []) ∧
    updateWorkflowExecutionWithNew baseEnv cachedCtx
        (some (c2pairNewCtx, emptySeqSnapshotMState, TransactionPolicy.passive))
        TransactionPolicy.active =
      .panic "index out of range" ∧
    resolverWithEventsMState.closeAsSnapshot TransactionPolicy.passive =
      .ok (sampleSnapshot, [sampleBatch]) ∧
    updateWorkflowExecutionWithNew baseEnv cachedCtx
        (some (c2pairNewCtx, resolverWithEventsMState, TransactionPolicy.passive))
        TransactionPolicy.active ≠
      .panic "index out of range" :=
  ⟨rfl,
   (c9_paired_update_first_batch_index baseEnv cachedCtx c2pairNewCtx
      emptySeqSnapshotMState TransactionPolicy.passive TransactionPolicy.active).1
     baseMState ⟨0⟩ ⟨0⟩ sampleMutation [] 0 [] sampleSnapshot
     rfl rfl rfl rfl rfl rfl,
   rfl,
   (c9_paired_update_first_batch_index baseEnv cachedCtx c2pairNewCtx
      resolverWithEventsMState TransactionPolicy.passive TransactionPolicy.active).2
     sampleSnapshot sampleBatch [] rfl⟩

/-! C1: which commit paths clear the cache on error. -/

/-- The reset tail returns the context it was given, whatever happens. -/
theorem resetTail_post (env : ShardEnv) (c : WfContext)
    (currMutableState newMutableState : MState)
    (currTransferTasks currTimerTasks : List TaskDesc)
    (currReplicationTasks : List ReplicationTask)
    (newTransferTasks newTimerTasks : List TaskDesc)
    (newReplicationTasks : List ReplicationTask)
    (newHistorySize : Int) (baseRunID : String) (baseRunNextEventID : Int)
    (updateCurr : Bool) (currentStatsHistorySize : Int) (ops0 : List StorageOp)
    (err : Option WfError) (post : WfContext) (ops : List StorageOp)
    (h : resetTail env c currMutableState newMutableState currTransferTasks
      currTimerTasks currReplicationTasks newTransferTasks newTimerTasks
      newReplicationTasks newHistorySize baseRunID baseRunNextEventID
      updateCurr currentStatsHistorySize ops0 = .ret err post ops) :
    post = c := by
  unfold resetTail at h
  split at h
  · cases h
    rfl
  · split at h
    · cases h
      rfl
    · split at h
      · cases h
        rfl
      · dsimp only [] at h
        split at h
        · cases h
          rfl
        · split at h <;> (cases h; rfl)

/-- The reset path never touches the cached mutable state. -/
theorem reset_preserves_msBuilder (env : ShardEnv) (c : WfContext)
    (currMutableState : MState) (updateCurr : Bool)
    (closeTask cleanupTask : Option TaskDesc) (newMutableState : MState)
    (newHistorySize : Int) (newTransferTasks newTimerTasks : List TaskDesc)
    (currReplicationTasks newReplicationTasks : List ReplicationTask)
    (baseRunID : String) (baseRunNextEventID : Int) (err : Option WfError)
    (post : WfContext) (ops : List StorageOp)
    (h : resetWorkflowExecution env c currMutableState updateCurr closeTask
      cleanupTask newMutableState newHistorySize newTransferTasks newTimerTasks
      currReplicationTasks newReplicationTasks baseRunID baseRunNextEventID =
      .ret err post ops) :
    post.msBuilder = c.msBuilder := by
  unfold resetWorkflowExecution at h
  dsimp only [] at h
  split at h
  · cases h
    rfl
  · split at h
    · cases h
      rfl
    · split at h
      · cases h
        rfl
      · split at h
        · split at h
          · cases h
            rfl
          · split at h
            · cases h
            · rw [resetTail_post _ _ _ _ _ _ _ _ _ _ _ _ _ _ _ _ _ _ _ h]
        · rw [resetTail_post _ _ _ _ _ _ _ _ _ _ _ _ _ _ _ _ _ _ _ h]

/-- C1 (amended): only the update commit path clears on error — every error
return of `updateWorkflowExecutionWithNew` leaves the current context's
cache and stats cleared; conflict-resolve leaves the context untouched on
every failure (snapshot-close error, resolver-produced events, storage
error) and clears only after success; create never touches the context; and
reset never drops the cached mutable state. -/
theorem c1_clear_discipline_amended :
    (∀ (env : ShardEnv) (c : WfContext)
      (newPair : Option (WfContext × MState × TransactionPolicy))
      (pol : TransactionPolicy) (e : WfError) (post : WfContext)
      (postNew : Option WfContext) (ops : List StorageOp),
      updateWorkflowExecutionWithNew env c newPair pol =
        .ret (some e) post postNew ops →
      post.msBuilder = none ∧ post.stats = none) ∧
    (∀ (env : ShardEnv) (c : WfContext) (prevRunID : String)
      (prevLastWriteVersion : Int) (prevState : Nat) (rms : MState)
      (rhs : Int) (e : WfError),
      rms.closeAsSnapshot TransactionPolicy.passive = .error e →
      conflictResolveWorkflowExecution env c prevRunID prevLastWriteVersion
        prevState rms rhs = ⟨some e, none, c, []⟩) ∧
    (∀ (env : ShardEnv) (c : WfContext) (prevRunID : String)
      (prevLastWriteVersion : Int) (prevState : Nat) (rms : MState)
      (rhs : Int) (rwf : WorkflowSnapshot) (seq : List WorkflowEvents),
      rms.closeAsSnapshot TransactionPolicy.passive = .ok (rwf, seq) →
      seq ≠ [] →
      (conflictResolveWorkflowExecution env c prevRunID prevLastWriteVersion
        prevState rms rhs).post = c) ∧
    (∀ (env : ShardEnv) (c : WfContext) (prevRunID : String)
      (prevLastWriteVersion : Int) (prevState : Nat) (rms : MState) (rhs : Int),
      (∀ req, env.conflictResolveResult req ≠ none) →
      (conflictResolveWorkflowExecution env c prevRunID prevLastWriteVersion
        prevState rms rhs).post = c) ∧
    (∀ (env : ShardEnv) (c : WfContext) (nw : WorkflowSnapshot)
      (historySize : Int) (createMode : Int) (prevRunID : String)
      (prevLastWriteVersion : Int),
      (createWorkflowExecution env c nw historySize createMode prevRunID
        prevLastWriteVersion).2.1 = c) ∧
    (∀ (env : ShardEnv) (c : WfContext) (cms : MState) (uc : Bool)
      (ct clt : Option TaskDesc) (nms : MState) (nhs : Int)
      (ntt ntmt : List TaskDesc) (crt nrt : List ReplicationTask)
      (br : String) (brn : Int) (err : Option WfError) (post : WfContext)
      (ops : List StorageOp),
      resetWorkflowExecution env c cms uc ct clt nms nhs ntt ntmt crt nrt
        br brn = .ret err post ops →
      post.msBuilder = c.msBuilder) := by
  refine ⟨?_, ?_, ?_, ?_, ?_, ?_⟩
  · intro env c newPair pol e post postNew ops h
    exact update_error_clears_current env c newPair pol e post postNew ops h
  · intro env c prevRunID prevLastWriteVersion prevState rms rhs e hclose
    simp only [conflictResolveWorkflowExecution, hclose]
  · intro env c prevRunID prevLastWriteVersion prevState rms rhs rwf seq
      hclose hne
    have hlen : seq.length ≠ 0 := by simpa [List.length_eq_zero] using hne
    simp only [conflictResolveWorkflowExecution, hclose, if_pos hlen]
  · intro env c prevRunID prevLastWriteVersion prevState rms rhs hstore
    unfold conflictResolveWorkflowExecution
    split
    · rfl
    · split
      · rfl
      · dsimp only []
        split
        · rfl
        · next heq => exact absurd heq (hstore _)
  · intro env c nw historySize createMode prevRunID prevLastWriteVersion
    unfold createWorkflowExecution
    dsimp only []
    split <;> rfl
  · intro env c cms uc ct clt nms nhs ntt ntmt crt nrt br brn err post ops h
    exact reset_preserves_msBuilder env c cms uc ct clt nms nhs ntt ntmt crt
      nrt br brn err post ops h

/-- A replacement mutable state whose snapshot close fails. -/
def closeFailMState : MState :=
  { baseMState with closeAsSnapshot := fun _ => .error (.storage 7) }

/-- Counterexample to C1 as stated: a conflict-resolve commit that fails (in
the snapshot close) returns its error with the cached mutable state and
stats still present — nothing is cleared. -/
theorem c1_counterexample :
    cachedCtx.msBuilder.isSome = true ∧
    (conflictResolveWorkflowExecution baseEnv cachedCtx "prev" 0 1
        closeFailMState 5).err = some (.storage 7) ∧
    (conflictResolveWorkflowExecution baseEnv cachedCtx "prev" 0 1
        closeFailMState 5).post.msBuilder.isSome = true ∧
    (conflictResolveWorkflowExecution baseEnv cachedCtx "prev" 0 1
        closeFailMState 5).post.stats.isSome = true := by
  exact ⟨rfl, rfl, rfl, rfl⟩

/-- An environment where the storage update always fails. -/
def updFailEnv : ShardEnv :=
  { baseEnv with updateResult := fun _ => some (.storage 9) }

/-- An environment where the storage conflict-resolve always fails. -/
def cfFailEnv : ShardEnv :=
  { baseEnv with conflictResolveResult := fun _ => some (.storage 8) }

/-- A current mutable state whose buffered-events flush fails. -/
def flushFailMState : MState :=
  { baseMState with flushResult := some (.storage 5) }

/-- Witness for C1 (amended) at concrete inputs, one per commit path. -/
theorem c1_witness :
    ((WfContext.clearCtx cachedCtx).msBuilder = none ∧
      (WfContext.clearCtx cachedCtx).stats = none) ∧
    conflictResolveWorkflowExecution baseEnv cachedCtx "prev" 0 1
        closeFailMState 5 = ⟨some (.storage 7), none, cachedCtx, []⟩ ∧
    (conflictResolveWorkflowExecution baseEnv cachedCtx "prev" 0 1
        resolverWithEventsMState 5).post = cachedCtx ∧
    (conflictResolveWorkflowExecution cfFailEnv cachedCtx "prev" 0 1
        baseMState 5).post = cachedCtx ∧
    (createWorkflowExecution baseEnv cachedCtx sampleSnapshot 120 0 "" 0).2.1 =
      cachedCtx ∧
    cachedCtx.msBuilder = cachedCtx.msBuilder :=
  ⟨c1_clear_discipline_amended.1 updFailEnv cachedCtx none TransactionPolicy.active
      (.storage 9) (WfContext.clearCtx cachedCtx) none
      [.updateExecution ⟨{ sampleMutation with executionStats := some ⟨0⟩ }, none⟩]
      rfl,
   c1_clear_discipline_amended.2.1 baseEnv cachedCtx "prev" 0 1 closeFailMState 5
     (.storage 7) rfl,
   c1_clear_discipline_amended.2.2.1 baseEnv cachedCtx "prev" 0 1
     resolverWithEventsMState 5 sampleSnapshot [sampleBatch] rfl
     (List.cons_ne_nil _ _),
   c1_clear_discipline_amended.2.2.2.1 cfFailEnv cachedCtx "prev" 0 1 baseMState 5
     (fun _ h => Option.noConfusion h),
   c1_clear_discipline_amended.2.2.2.2.1 baseEnv cachedCtx sampleSnapshot 120 0 "" 0,
   c1_clear_discipline_amended.2.2.2.2.2 baseEnv cachedCtx flushFailMState false
     none none baseMState 0 [] [] [] [] "base" 5 (some (.storage 5)) cachedCtx []
     rfl⟩
